import Mathlib

/-!
Verification of the cleanup-callback registry and warn/fatal dispatcher of
`src/lib/util/fatal.c` (sudo's fatal-error reporting module).

Modelling choices (shallow embedding):
* A callback function pointer is identified by a `Nat`; the registry
  (`static struct sudo_fatal_callback_list callbacks`, an SLIST with
  head insertion) is a `List Nat` whose head is the most recently
  registered entry.
* What a callback does when invoked is modelled by a `behavior` map
  `Nat → List RegOp`: the sequence of register/deregister calls that the
  callback performs on the registry (the only registry-visible effects a
  callback can have).
* `do_cleanup`'s while-loop is given explicit fuel and returns `none`
  when the fuel runs out, so non-termination is observable.
* The external collaborators of §6 of the spec are parameters: the
  message formatter's result is an `Option String` (`none` = allocation
  failure / null), `strerror` and the program name are passed in.
-/

/-- A registry operation a callback may perform while it runs:
`sudo_fatal_callback_register` or `sudo_fatal_callback_deregister`
applied to a function identified by a `Nat`. -/
inductive RegOp where
  | addCb (f : Nat) : RegOp
  | removeCb (f : Nat) : RegOp
deriving DecidableEq, Repr

/-- Model of `sudo_fatal_callback_register` (fatal.c:160-179): scan the list for a
duplicate (`return -1` if found), then allocate a node (`allocOk = false`
models `malloc` failure, `return -1`) and insert it at the head
(`SLIST_INSERT_HEAD`), returning 0. The pair is (return value, new list). -/
def sudo_fatal_callback_register (allocOk : Bool) (func : Nat)
    (callbacks : List Nat) : Int × List Nat :=
  if func ∈ callbacks then
    (-1, callbacks)          -- dupe!
  else if allocOk then
    (0, func :: callbacks)
  else
    (-1, callbacks)          -- malloc failed

/-- Model of `sudo_fatal_callback_deregister` (fatal.c:184-202): linear scan; if an
entry with the same function pointer is found it is unlinked and freed and
0 is returned, otherwise -1.  The pair is (return value, new list). -/
def sudo_fatal_callback_deregister (func : Nat)
    (callbacks : List Nat) : Int × List Nat :=
  match callbacks with
  | [] => (-1, [])
  | cb :: rest =>
    if cb = func then
      (0, rest)
    else
      let r := sudo_fatal_callback_deregister func rest
      (r.1, cb :: r.2)

/-- Effect of one registry call made by a running callback (return value
discarded, as a C callback is free to ignore it; allocation assumed to
succeed). -/
def applyOp (callbacks : List Nat) (op : RegOp) : List Nat :=
  match op with
  | RegOp.addCb f => (sudo_fatal_callback_register true f callbacks).2
  | RegOp.removeCb f => (sudo_fatal_callback_deregister f callbacks).2

/-- Effect of the sequence of registry calls made by a running callback. -/
def applyOps (ops : List RegOp) (callbacks : List Nat) : List Nat :=
  ops.foldl applyOp callbacks

/-- Model of `do_cleanup` (fatal.c:50-61): while the list is non-empty, remove the
head (`SLIST_REMOVE_HEAD`) and only then invoke its function — which may
itself mutate the registry, per `B` — then free the node.  Returns
`some (trace, finalRegistry)` where `trace` is the invocation order, or
`none` if the loop does not finish within `fuel` iterations. -/
def do_cleanup (B : Nat → List RegOp) : Nat → List Nat →
    Option (List Nat × List Nat)
  | 0, _ => none
  | _ + 1, [] => some ([], [])
  | fuel + 1, cb :: rest =>
    match do_cleanup B fuel (applyOps (B cb) rest) with
    | some (tr, fin) => some (cb :: tr, fin)
    | none => none

/-- A callback that performs no registry operations when invoked. -/
def no_ops : Nat → List RegOp := fun _ => []

/-- How `sudo_printf`'s `%s` renders the string built by the formatter:
the string itself, or the glibc placeholder `(null)` for a null pointer —
the same placeholder fatal.c itself uses in its `str ? str : "(null)"`. -/
def render (str : Option String) : String :=
  str.getD "(null)"

/-- The `_warning` helper (fatal.c:134-155).  `fmt` is the format template
(`none` = NULL), `str` the formatter's output (`none` = allocation
failure; the formatter is external, spec §6), `strerror` the
OS-error-to-text collaborator.  Returns the single line handed to
`sudo_printf(SUDO_CONV_ERROR_MSG, ...)`. -/
def warning_line (progname : String) (errnum : Nat) (fmt str : Option String)
    (strerror : Nat → String) : String :=
  if errnum ≠ 0 then
    if fmt.isSome then
      progname ++ ": " ++ render str ++ ": " ++ strerror errnum ++ "\n"
    else
      progname ++ ": " ++ strerror errnum ++ "\n"
  else
    progname ++ ": " ++ render str ++ "\n"

/-- The `EXIT_FAILURE` status passed to `exit()` on the fatal path. -/
def EXIT_FAILURE : Nat := 1

/-- Outcome of one warn/fatal entry point: the lines emitted on the error
channel, the callbacks invoked (in order), the registry afterwards, and
`exitCode = some c` iff the call terminated the process via `exit(c)`
instead of returning. -/
structure DispatchResult where
  emitted : List String
  invoked : List Nat
  callbacks : List Nat
  exitCode : Option Nat
deriving DecidableEq, Repr

/-- Model of `sudo_fatal_nodebug` (fatal.c:63-73): `_warning(errno, ...)`, then
`do_cleanup()`, then `exit(EXIT_FAILURE)`; `none` if the drain loops. -/
def sudo_fatal_nodebug (B : Nat → List RegOp) (fuel : Nat)
    (progname : String) (strerror : Nat → String) (errno : Nat)
    (fmt str : Option String) (callbacks : List Nat) :
    Option DispatchResult :=
  match do_cleanup B fuel callbacks with
  | some (tr, fin) =>
    some ⟨[warning_line progname errno fmt str strerror], tr, fin,
          some EXIT_FAILURE⟩
  | none => none

/-- Model of `sudo_fatalx_nodebug` (fatal.c:75-85): as `sudo_fatal_nodebug` but
`_warning(0, ...)` — the OS error code is not consulted. -/
def sudo_fatalx_nodebug (B : Nat → List RegOp) (fuel : Nat)
    (progname : String) (strerror : Nat → String)
    (fmt str : Option String) (callbacks : List Nat) :
    Option DispatchResult :=
  match do_cleanup B fuel callbacks with
  | some (tr, fin) =>
    some ⟨[warning_line progname 0 fmt str strerror], tr, fin,
          some EXIT_FAILURE⟩
  | none => none

/-- Model of `sudo_vfatal_nodebug` (fatal.c:87-93): the caller passes a prebuilt
`va_list`; registry-visible behaviour identical to `sudo_fatal_nodebug`. -/
def sudo_vfatal_nodebug (B : Nat → List RegOp) (fuel : Nat)
    (progname : String) (strerror : Nat → String) (errno : Nat)
    (fmt str : Option String) (callbacks : List Nat) :
    Option DispatchResult :=
  match do_cleanup B fuel callbacks with
  | some (tr, fin) =>
    some ⟨[warning_line progname errno fmt str strerror], tr, fin,
          some EXIT_FAILURE⟩
  | none => none

/-- Model of `sudo_vfatalx_nodebug` (fatal.c:95-101). -/
def sudo_vfatalx_nodebug (B : Nat → List RegOp) (fuel : Nat)
    (progname : String) (strerror : Nat → String)
    (fmt str : Option String) (callbacks : List Nat) :
    Option DispatchResult :=
  match do_cleanup B fuel callbacks with
  | some (tr, fin) =>
    some ⟨[warning_line progname 0 fmt str strerror], tr, fin,
          some EXIT_FAILURE⟩
  | none => none

/-- Model of `sudo_warn_nodebug` (fatal.c:103-111): `_warning(errno, ...)` and
return; no callback is invoked and the registry is untouched. -/
def sudo_warn_nodebug (progname : String) (strerror : Nat → String)
    (errno : Nat) (fmt str : Option String) (callbacks : List Nat) :
    DispatchResult :=
  ⟨[warning_line progname errno fmt str strerror], [], callbacks, none⟩

/-- Model of `sudo_warnx_nodebug` (fatal.c:113-120): `_warning(0, ...)` and
return. -/
def sudo_warnx_nodebug (progname : String) (strerror : Nat → String)
    (fmt str : Option String) (callbacks : List Nat) : DispatchResult :=
  ⟨[warning_line progname 0 fmt str strerror], [], callbacks, none⟩

/-- Model of `sudo_vwarn_nodebug` (fatal.c:122-126). -/
def sudo_vwarn_nodebug (progname : String) (strerror : Nat → String)
    (errno : Nat) (fmt str : Option String) (callbacks : List Nat) :
    DispatchResult :=
  ⟨[warning_line progname errno fmt str strerror], [], callbacks, none⟩

/-- Model of `sudo_vwarnx_nodebug` (fatal.c:128-132). -/
def sudo_vwarnx_nodebug (progname : String) (strerror : Nat → String)
    (fmt str : Option String) (callbacks : List Nat) : DispatchResult :=
  ⟨[warning_line progname 0 fmt str strerror], [], callbacks, none⟩

/-!  Spec-side definitions, used only to compare the code's order with
the spec's words (spec §3, §8): the registry kept in *registration
order* (earliest first), register appending at the tail if absent,
deregister erasing the entry. -/

/-- Modelled from the spec: "insertion-order ... excluding any
deregistered entries" — one register step on a registration-order list. -/
def specRegister (f : Nat) (l : List Nat) : List Nat :=
  if f ∈ l then l else l ++ [f]

/-- Modelled from the spec: one register/deregister step on a
registration-order list. -/
def specApply (l : List Nat) (op : RegOp) : List Nat :=
  match op with
  | RegOp.addCb f => specRegister f l
  | RegOp.removeCb f => l.erase f

/-- Modelled from the spec: the still-registered entries in registration
order after a sequence of register/deregister calls. -/
def specOrder (ops : List RegOp) (l : List Nat) : List Nat :=
  ops.foldl specApply l


/-! Helper lemmas about the registry operations. -/

theorem dereg_snd (f : Nat) : ∀ l : List Nat,
    (sudo_fatal_callback_deregister f l).2 = l.erase f
  | [] => rfl
  | a :: rest => by
    by_cases h : a = f
    · subst h
      simp [sudo_fatal_callback_deregister, List.erase_cons]
    · simp [sudo_fatal_callback_deregister, h, dereg_snd f rest,
        List.erase_cons, Ne.symm h]

theorem dereg_fst (f : Nat) : ∀ l : List Nat,
    (sudo_fatal_callback_deregister f l).1 = if f ∈ l then 0 else -1
  | [] => rfl
  | a :: rest => by
    by_cases h : a = f
    · subst h
      simp [sudo_fatal_callback_deregister]
    · simp [sudo_fatal_callback_deregister, h, dereg_fst f rest, Ne.symm h]

theorem reg_of_mem (a : Bool) (f : Nat) (l : List Nat) (h : f ∈ l) :
    sudo_fatal_callback_register a f l = (-1, l) := by
  simp [sudo_fatal_callback_register, h]

theorem reg_of_not_mem (f : Nat) (l : List Nat) (h : f ∉ l) :
    sudo_fatal_callback_register true f l = (0, f :: l) := by
  simp [sudo_fatal_callback_register, h]

theorem reg_snd_nodup (a : Bool) (f : Nat) (l : List Nat) (h : l.Nodup) :
    ((sudo_fatal_callback_register a f l).2).Nodup := by
  by_cases hm : f ∈ l
  · simpa [reg_of_mem a f l hm]
  · cases a
    · simpa [sudo_fatal_callback_register, hm]
    · simpa [reg_of_not_mem f l hm, hm]

theorem dereg_snd_nodup (f : Nat) (l : List Nat) (h : l.Nodup) :
    ((sudo_fatal_callback_deregister f l).2).Nodup := by
  rw [dereg_snd]
  exact h.erase f

theorem applyOp_nodup (l : List Nat) (op : RegOp) (h : l.Nodup) :
    (applyOp l op).Nodup := by
  cases op with
  | addCb f => exact reg_snd_nodup true f l h
  | removeCb f => exact dereg_snd_nodup f l h

theorem applyOps_nodup (ops : List RegOp) :
    ∀ l : List Nat, l.Nodup → (applyOps ops l).Nodup := by
  induction ops with
  | nil => exact fun l h => h
  | cons op rest ih =>
    intro l h
    exact ih (applyOp l op) (applyOp_nodup l op h)

theorem drain_triv : ∀ l : List Nat,
    do_cleanup no_ops (l.length + 1) l = some (l, [])
  | [] => rfl
  | a :: rest => by
    have ih := drain_triv rest
    simp only [do_cleanup, no_ops, applyOps, List.foldl_nil, List.length_cons]
    rw [ih]

theorem drain_fin_nil (B : Nat → List RegOp) : ∀ (fuel : Nat)
    (reg tr fin : List Nat), do_cleanup B fuel reg = some (tr, fin) →
    fin = [] := by
  intro fuel
  induction fuel with
  | zero => intro reg tr fin h; simp [do_cleanup] at h
  | succ n ih =>
    intro reg tr fin h
    cases reg with
    | nil =>
      simp [do_cleanup] at h
      exact h.2
    | cons cb rest =>
      simp only [do_cleanup] at h
      cases h' : do_cleanup B n (applyOps (B cb) rest) with
      | none => rw [h'] at h; simp at h
      | some p =>
        rw [h'] at h
        cases p with
        | mk tr' fin' =>
          simp at h
          rcases h with ⟨_, hfin⟩
          exact hfin ▸ ih _ _ _ h'

theorem nodup_reverse_erase (f : Nat) (l : List Nat) (h : l.Nodup) :
    l.reverse.erase f = (l.erase f).reverse := by
  have h' : l.reverse.Nodup := List.nodup_reverse.mpr h
  rw [h'.erase_eq_filter f, h.erase_eq_filter f, List.filter_reverse]

theorem specApply_nodup (l : List Nat) (op : RegOp) (h : l.Nodup) :
    (specApply l op).Nodup := by
  cases op with
  | addCb f =>
    by_cases hm : f ∈ l
    · simpa [specApply, specRegister, hm]
    · simp [specApply, specRegister, hm, List.nodup_append, h]
  | removeCb f => exact h.erase f

theorem applyOp_reverse (l : List Nat) (op : RegOp) (h : l.Nodup) :
    applyOp l.reverse op = (specApply l op).reverse := by
  cases op with
  | addCb f =>
    by_cases hm : f ∈ l
    · have hr : f ∈ l.reverse := List.mem_reverse.mpr hm
      simp [applyOp, reg_of_mem true f _ hr, specApply, specRegister, hm]
    · have hr : f ∉ l.reverse := fun hc => hm (List.mem_reverse.mp hc)
      simp [applyOp, reg_of_not_mem f _ hr, specApply, specRegister, hm]
  | removeCb f =>
    show (sudo_fatal_callback_deregister f l.reverse).2 = (l.erase f).reverse
    rw [dereg_snd, nodup_reverse_erase f l h]

theorem applyOps_reverse (ops : List RegOp) :
    ∀ l : List Nat, l.Nodup →
      applyOps ops l.reverse = (specOrder ops l).reverse := by
  induction ops with
  | nil => intro l _; rfl
  | cons op rest ih =>
    intro l h
    show applyOps rest (applyOp l.reverse op) =
      (specOrder rest (specApply l op)).reverse
    rw [applyOp_reverse l op h]
    exact ih (specApply l op) (specApply_nodup l op h)

/-- C1: for every sequence of register/deregister calls starting from the
empty registry, the registry the code builds is the reverse of the
spec-side registration-order list (so a drain with non-mutating callbacks
invokes the still-registered callbacks most-recently-registered first);
in particular registering 1, then 2, then 3 drains as 3, 2, 1. -/
theorem drain_order_is_reverse_registration :
    (∀ ops : List RegOp,
      applyOps ops [] = (specOrder ops []).reverse ∧
      do_cleanup no_ops ((applyOps ops []).length + 1) (applyOps ops []) =
        some ((specOrder ops []).reverse, [])) ∧
    (applyOps [RegOp.addCb 1, RegOp.addCb 2, RegOp.addCb 3] [] = [3, 2, 1] ∧
      do_cleanup no_ops 4 [3, 2, 1] = some ([3, 2, 1], [])) := by
  constructor
  · intro ops
    have h0 : applyOps ops [] = (specOrder ops []).reverse :=
      applyOps_reverse ops [] List.nodup_nil
    refine ⟨h0, ?_⟩
    rw [h0]
    exact drain_triv _
  · exact ⟨by decide, by decide⟩

/-- C2: draining a registry whose callbacks do not touch the registry
invokes exactly the entries present at the start, each exactly once (the
trace is the registry list itself), and for arbitrary callback behaviour
any terminating drain leaves the registry empty. -/
theorem drain_empties_registry_and_invokes_each_once :
    (∀ reg : List Nat,
      do_cleanup no_ops (reg.length + 1) reg = some (reg, [])) ∧
    (∀ (B : Nat → List RegOp) (fuel : Nat) (reg tr fin : List Nat),
      do_cleanup B fuel reg = some (tr, fin) → fin = []) :=
  ⟨drain_triv, fun B fuel reg tr fin h => drain_fin_nil B fuel reg tr fin h⟩

/-- Witness for C2 at a concrete registry. -/
theorem drain_empties_registry_and_invokes_each_once_witness :
    do_cleanup no_ops 3 [7, 9] = some ([7, 9], []) ∧ ([] : List Nat) = [] :=
  ⟨drain_empties_registry_and_invokes_each_once.1 [7, 9],
   drain_empties_registry_and_invokes_each_once.2 no_ops 3 [7, 9] [7, 9] []
     (by decide)⟩

/-- C5: registering an already-registered function reference returns the
duplicate failure -1 and leaves the registry unchanged, and every
registry operation — register (with or without allocation failure),
deregister, and any sequence of such calls — preserves the no-duplicates
invariant. -/
theorem register_rejects_duplicate_and_preserves_uniqueness :
    (∀ (a : Bool) (f : Nat) (reg : List Nat), f ∈ reg →
      sudo_fatal_callback_register a f reg = (-1, reg)) ∧
    (∀ (a : Bool) (f : Nat) (reg : List Nat), reg.Nodup →
      ((sudo_fatal_callback_register a f reg).2).Nodup) ∧
    (∀ (f : Nat) (reg : List Nat), reg.Nodup →
      ((sudo_fatal_callback_deregister f reg).2).Nodup) ∧
    (∀ (ops : List RegOp) (reg : List Nat), reg.Nodup →
      (applyOps ops reg).Nodup) :=
  ⟨reg_of_mem, reg_snd_nodup, dereg_snd_nodup,
   fun ops reg h => applyOps_nodup ops reg h⟩

/-- Witness for C5 at a concrete registry. -/
theorem register_rejects_duplicate_witness :
    sudo_fatal_callback_register true 2 [2, 1] = (-1, [2, 1]) ∧
    (applyOps [RegOp.addCb 5, RegOp.addCb 5] [1]).Nodup :=
  ⟨register_rejects_duplicate_and_preserves_uniqueness.1 true 2 [2, 1]
     (by decide),
   register_rejects_duplicate_and_preserves_uniqueness.2.2.2
     [RegOp.addCb 5, RegOp.addCb 5] [1] (by decide)⟩

/-- C6: deregistering an absent function reference returns the not-found
failure -1 with the registry unchanged; deregistering a present one
returns 0 and removes exactly that entry (the erased list; under the
no-duplicates invariant the removed reference no longer occurs and every
other reference keeps its multiplicity). -/
theorem deregister_not_found_or_removes_exactly_one :
    (∀ (f : Nat) (reg : List Nat), f ∉ reg →
      sudo_fatal_callback_deregister f reg = (-1, reg)) ∧
    (∀ (f : Nat) (reg : List Nat), f ∈ reg →
      (sudo_fatal_callback_deregister f reg).1 = 0 ∧
      (sudo_fatal_callback_deregister f reg).2 = reg.erase f) ∧
    (∀ (f : Nat) (reg : List Nat), reg.Nodup → f ∈ reg →
      ((sudo_fatal_callback_deregister f reg).2).count f = 0 ∧
      ∀ g : Nat, g ≠ f →
        ((sudo_fatal_callback_deregister f reg).2).count g = reg.count g) := by
  refine ⟨?_, ?_, ?_⟩
  · intro f reg h
    have h1 := dereg_fst f reg
    have h2 := dereg_snd f reg
    rw [if_neg h] at h1
    rw [List.erase_of_not_mem h] at h2
    exact Prod.ext h1 h2
  · intro f reg h
    refine ⟨?_, dereg_snd f reg⟩
    rw [dereg_fst f reg, if_pos h]
  · intro f reg hnd h
    rw [dereg_snd f reg]
    constructor
    · rw [List.count_erase_self, List.count_eq_one_of_mem hnd h]
    · intro g hg
      exact List.count_erase_of_ne hg reg

/-- Witness for C6 at a concrete registry. -/
theorem deregister_not_found_witness :
    sudo_fatal_callback_deregister 4 [3, 2, 1] = (-1, [3, 2, 1]) ∧
    (sudo_fatal_callback_deregister 2 [3, 2, 1]).1 = 0 ∧
    (sudo_fatal_callback_deregister 2 [3, 2, 1]).2 = [3, 1] ∧
    ((sudo_fatal_callback_deregister 2 [3, 2, 1]).2).count 2 = 0 ∧
    ((sudo_fatal_callback_deregister 2 [3, 2, 1]).2).count 3 =
      List.count 3 [3, 2, 1] := by
  refine ⟨deregister_not_found_or_removes_exactly_one.1 4 [3, 2, 1]
    (by decide), ?_, ?_, ?_, ?_⟩
  · exact (deregister_not_found_or_removes_exactly_one.2.1 2 [3, 2, 1]
      (by decide)).1
  · rw [(deregister_not_found_or_removes_exactly_one.2.1 2 [3, 2, 1]
      (by decide)).2]
    decide
  · exact (deregister_not_found_or_removes_exactly_one.2.2 2 [3, 2, 1]
      (by decide) (by decide)).1
  · exact (deregister_not_found_or_removes_exactly_one.2.2 2 [3, 2, 1]
      (by decide) (by decide)).2 3 (by decide)

/-- C3: every fatal-family entry point (fatal, fatalx, vfatal, vfatalx,
here with registry-inert callbacks) emits exactly one line — the
`_warning` line — then drains and invokes every registered callback,
leaves the registry empty, and terminates the process with the nonzero
failure status `EXIT_FAILURE` instead of returning. -/
theorem fatal_family_reports_drains_and_terminates :
    EXIT_FAILURE ≠ 0 ∧
    ∀ (pn : String) (ser : Nat → String) (errno : Nat)
      (fmt str : Option String) (reg : List Nat),
      sudo_fatal_nodebug no_ops (reg.length + 1) pn ser errno fmt str reg =
        some ⟨[warning_line pn errno fmt str ser], reg, [],
              some EXIT_FAILURE⟩ ∧
      sudo_fatalx_nodebug no_ops (reg.length + 1) pn ser fmt str reg =
        some ⟨[warning_line pn 0 fmt str ser], reg, [],
              some EXIT_FAILURE⟩ ∧
      sudo_vfatal_nodebug no_ops (reg.length + 1) pn ser errno fmt str reg =
        some ⟨[warning_line pn errno fmt str ser], reg, [],
              some EXIT_FAILURE⟩ ∧
      sudo_vfatalx_nodebug no_ops (reg.length + 1) pn ser fmt str reg =
        some ⟨[warning_line pn 0 fmt str ser], reg, [],
              some EXIT_FAILURE⟩ := by
  refine ⟨by decide, ?_⟩
  intro pn ser errno fmt str reg
  refine ⟨?_, ?_, ?_, ?_⟩ <;>
    simp [sudo_fatal_nodebug, sudo_fatalx_nodebug, sudo_vfatal_nodebug,
      sudo_vfatalx_nodebug, drain_triv reg]

/-- C7: every warn-family entry point (warn, warnx, vwarn, vwarnx) emits
exactly one line, invokes no callback, leaves the registry exactly as it
was, and returns normally (no exit code). -/
theorem warn_family_returns_registry_untouched :
    ∀ (pn : String) (ser : Nat → String) (errno : Nat)
      (fmt str : Option String) (reg : List Nat),
      ((sudo_warn_nodebug pn ser errno fmt str reg).emitted =
          [warning_line pn errno fmt str ser] ∧
        (sudo_warn_nodebug pn ser errno fmt str reg).invoked = [] ∧
        (sudo_warn_nodebug pn ser errno fmt str reg).callbacks = reg ∧
        (sudo_warn_nodebug pn ser errno fmt str reg).exitCode = none) ∧
      ((sudo_warnx_nodebug pn ser fmt str reg).emitted =
          [warning_line pn 0 fmt str ser] ∧
        (sudo_warnx_nodebug pn ser fmt str reg).invoked = [] ∧
        (sudo_warnx_nodebug pn ser fmt str reg).callbacks = reg ∧
        (sudo_warnx_nodebug pn ser fmt str reg).exitCode = none) ∧
      ((sudo_vwarn_nodebug pn ser errno fmt str reg).emitted =
          [warning_line pn errno fmt str ser] ∧
        (sudo_vwarn_nodebug pn ser errno fmt str reg).invoked = [] ∧
        (sudo_vwarn_nodebug pn ser errno fmt str reg).callbacks = reg ∧
        (sudo_vwarn_nodebug pn ser errno fmt str reg).exitCode = none) ∧
      ((sudo_vwarnx_nodebug pn ser fmt str reg).emitted =
          [warning_line pn 0 fmt str ser] ∧
        (sudo_vwarnx_nodebug pn ser fmt str reg).invoked = [] ∧
        (sudo_vwarnx_nodebug pn ser fmt str reg).callbacks = reg ∧
        (sudo_vwarnx_nodebug pn ser fmt str reg).exitCode = none) :=
  fun _ _ _ _ _ _ =>
    ⟨⟨rfl, rfl, rfl, rfl⟩, ⟨rfl, rfl, rfl, rfl⟩,
     ⟨rfl, rfl, rfl, rfl⟩, ⟨rfl, rfl, rfl, rfl⟩⟩

/-- C4: the three-way message-shape rule of `_warning`: nonzero error
code with a template gives "prog: message: error", nonzero error code
without a template gives "prog: error", zero error code gives
"prog: message-or-(null)"; and the x-suffixed entry points force the
error code to zero (warnx/vwarnx emit the errnum-0 line, fatalx/vfatalx
coincide with fatal/vfatal called with errnum 0). -/
theorem warning_message_shape_three_way :
    (∀ (pn : String) (ser : Nat → String) (e : Nat) (t m : String),
      e ≠ 0 → warning_line pn e (some t) (some m) ser =
        pn ++ ": " ++ m ++ ": " ++ ser e ++ "\n") ∧
    (∀ (pn : String) (ser : Nat → String) (e : Nat) (str : Option String),
      e ≠ 0 → warning_line pn e none str ser =
        pn ++ ": " ++ ser e ++ "\n") ∧
    (∀ (pn : String) (ser : Nat → String) (fmt str : Option String),
      warning_line pn 0 fmt str ser =
        pn ++ ": " ++ str.getD "(null)" ++ "\n") ∧
    (∀ (pn : String) (ser : Nat → String) (fmt str : Option String)
      (reg : List Nat) (fuel : Nat),
      (sudo_warnx_nodebug pn ser fmt str reg).emitted =
        [warning_line pn 0 fmt str ser] ∧
      (sudo_vwarnx_nodebug pn ser fmt str reg).emitted =
        [warning_line pn 0 fmt str ser] ∧
      sudo_fatalx_nodebug no_ops fuel pn ser fmt str reg =
        sudo_fatal_nodebug no_ops fuel pn ser 0 fmt str reg ∧
      sudo_vfatalx_nodebug no_ops fuel pn ser fmt str reg =
        sudo_vfatal_nodebug no_ops fuel pn ser 0 fmt str reg) := by
  refine ⟨?_, ?_, ?_, ?_⟩
  · intro pn ser e t m he
    simp [warning_line, render, he]
  · intro pn ser e str he
    simp [warning_line, he]
  · intro pn ser fmt str
    simp [warning_line, render]
  · intro pn ser fmt str reg fuel
    exact ⟨rfl, rfl, rfl, rfl⟩

/-- Witness for C4 with a concrete program name, error code and
collaborator outputs. -/
theorem warning_message_shape_witness :
    warning_line "sudo" 2 (some "cannot open %s") (some "cannot open f")
      (fun _ => "No such file") = "sudo: cannot open f: No such file\n" ∧
    warning_line "sudo" 2 none none (fun _ => "No such file") =
      "sudo: No such file\n" :=
  ⟨warning_message_shape_three_way.1 "sudo" (fun _ => "No such file") 2
     "cannot open %s" "cannot open f" (by decide),
   warning_message_shape_three_way.2.1 "sudo" (fun _ => "No such file") 2
     none (by decide)⟩

/-- C8 counterexample: with a nonzero error code and a template supplied,
a formatting failure is NOT treated like a null template: `_warning`
branches on the template (`fmt != NULL`), not on the formatted string, so
the emitted line keeps a "(null)" message slot instead of the
OS-error-only null-template line. -/
theorem formatting_failure_counterexample :
    warning_line "p" 1 (some "t") none (fun _ => "E") = "p: (null): E\n" ∧
    warning_line "p" 1 none none (fun _ => "E") = "p: E\n" ∧
    warning_line "p" 1 (some "t") none (fun _ => "E") ≠
      warning_line "p" 1 none none (fun _ => "E") := by
  refine ⟨by decide, by decide, by decide⟩

/-- C8 amended: a formatting failure never crashes the dispatcher and
never loses the report — exactly one line is still emitted — with the
literal "(null)" placeholder standing in for the message; this coincides
with the null-template rule when the error code is zero, but with a
nonzero error code and a template supplied the line keeps the placeholder
message rather than falling back to the OS-error-only form. -/
theorem formatting_failure_emits_placeholder_line :
    (∀ (pn : String) (ser : Nat → String) (e : Nat) (t : String),
      e ≠ 0 → warning_line pn e (some t) none ser =
        pn ++ ": " ++ "(null)" ++ ": " ++ ser e ++ "\n") ∧
    (∀ (pn : String) (ser : Nat → String) (e : Nat),
      e ≠ 0 → warning_line pn e none none ser =
        pn ++ ": " ++ ser e ++ "\n") ∧
    (∀ (pn : String) (ser : Nat → String) (fmt : Option String),
      warning_line pn 0 fmt none ser = pn ++ ": " ++ "(null)" ++ "\n") ∧
    (∀ (pn : String) (ser : Nat → String) (errno : Nat)
      (fmt : Option String) (reg : List Nat),
      (sudo_warn_nodebug pn ser errno fmt none reg).emitted.length = 1 ∧
      (sudo_warnx_nodebug pn ser fmt none reg).emitted.length = 1) := by
  refine ⟨?_, ?_, ?_, ?_⟩
  · intro pn ser e t he
    simp [warning_line, render, he]
  · intro pn ser e he
    simp [warning_line, he]
  · intro pn ser fmt
    simp [warning_line, render]
  · intro pn ser errno fmt reg
    exact ⟨rfl, rfl⟩

/-- Witness for the amended C8 at a concrete input. -/
theorem formatting_failure_emits_placeholder_witness :
    warning_line "p" 1 (some "t") none (fun _ => "E") =
      "p" ++ ": " ++ "(null)" ++ ": " ++ "E" ++ "\n" ∧
    warning_line "p" 1 none none (fun _ => "E") = "p" ++ ": " ++ "E" ++ "\n" :=
  ⟨formatting_failure_emits_placeholder_line.1 "p" (fun _ => "E") 1 "t"
     (by decide),
   formatting_failure_emits_placeholder_line.2.1 "p" (fun _ => "E") 1
     (by decide)⟩

theorem drain_selfdereg : ∀ (reg : List Nat), reg.Nodup →
    do_cleanup (fun c => [RegOp.removeCb c]) (reg.length + 1) reg =
      some (reg, [])
  | [], _ => rfl
  | c :: rest, h => by
    have hc : c ∉ rest := (List.nodup_cons.mp h).1
    have ih := drain_selfdereg rest (List.nodup_cons.mp h).2
    have happ : applyOps [RegOp.removeCb c] rest = rest := by
      simp [applyOps, applyOp, dereg_snd, List.erase_of_not_mem hc]
    simp [do_cleanup, happ, ih]

theorem applyOp_count_untouched (g : Nat) (l : List Nat) (op : RegOp)
    (h1 : op ≠ RegOp.addCb g) (h2 : op ≠ RegOp.removeCb g) :
    (applyOp l op).count g = l.count g := by
  cases op with
  | addCb f =>
    have hfg : g ≠ f := fun he => h1 (by rw [he])
    by_cases hm : f ∈ l
    · simp [applyOp, sudo_fatal_callback_register, hm]
    · simp [applyOp, sudo_fatal_callback_register, hm, List.count_cons, hfg]
  | removeCb f =>
    have hfg : g ≠ f := fun he => h2 (by rw [he])
    show ((sudo_fatal_callback_deregister f l).2).count g = l.count g
    rw [dereg_snd]
    exact List.count_erase_of_ne hfg l

theorem applyOps_count_untouched (g : Nat) : ∀ (ops : List RegOp)
    (l : List Nat),
    (∀ op ∈ ops, op ≠ RegOp.addCb g ∧ op ≠ RegOp.removeCb g) →
    (applyOps ops l).count g = l.count g := by
  intro ops
  induction ops with
  | nil => intro l _; rfl
  | cons op rest ih =>
    intro l h
    have h1 := h op (List.mem_cons_self op rest)
    show (applyOps rest (applyOp l op)).count g = l.count g
    rw [ih (applyOp l op) (fun o ho => h o (List.mem_cons_of_mem op ho))]
    exact applyOp_count_untouched g l op h1.1 h1.2

theorem drain_count_untouched (B : Nat → List RegOp) (g : Nat)
    (hB : ∀ c op, op ∈ B c → op ≠ RegOp.addCb g ∧ op ≠ RegOp.removeCb g) :
    ∀ (fuel : Nat) (reg tr fin : List Nat),
      do_cleanup B fuel reg = some (tr, fin) →
      tr.count g = reg.count g := by
  intro fuel
  induction fuel with
  | zero => intro reg tr fin h; simp [do_cleanup] at h
  | succ n ih =>
    intro reg tr fin h
    cases reg with
    | nil =>
      simp [do_cleanup] at h
      rw [← h.1]
    | cons cb rest =>
      simp only [do_cleanup] at h
      cases h' : do_cleanup B n (applyOps (B cb) rest) with
      | none => rw [h'] at h; simp at h
      | some p =>
        rw [h'] at h
        cases p with
        | mk tr' fin' =>
          simp at h
          rw [← h.1, List.count_cons, List.count_cons,
            ih _ tr' fin' h',
            applyOps_count_untouched g (B cb) rest (hB cb)]

/-- C9: during a drain each entry is removed before its function runs, so
a callback that deregisters itself observes a consistent registry — for
every duplicate-free registry whose callbacks each try to deregister
themselves, the drain is identical to the inert one (no crash, every
entry invoked once, registry empty) — and for arbitrary callback
behaviour, any function reference that no callback registers or
deregisters is invoked by a terminating drain exactly as many times as it
occurs in the starting registry (never skipped, never double-invoked). -/
theorem drain_entry_removed_before_invocation :
    (∀ reg : List Nat, reg.Nodup →
      do_cleanup (fun c => [RegOp.removeCb c]) (reg.length + 1) reg =
        some (reg, [])) ∧
    (∀ (B : Nat → List RegOp) (g : Nat) (fuel : Nat) (reg tr fin : List Nat),
      (∀ c op, op ∈ B c → op ≠ RegOp.addCb g ∧ op ≠ RegOp.removeCb g) →
      do_cleanup B fuel reg = some (tr, fin) →
      tr.count g = reg.count g) :=
  ⟨drain_selfdereg,
   fun B g fuel reg tr fin hB h => drain_count_untouched B g hB fuel reg tr fin h⟩

/-- Witness for C9: a concrete self-deregistering drain and a concrete
drain whose callback 7 deregisters callback 9 while 3 stays untouched. -/
theorem drain_entry_removed_before_invocation_witness :
    do_cleanup (fun c => [RegOp.removeCb c]) 3 [4, 8] = some ([4, 8], []) ∧
    List.count 3 [7, 3] = List.count 3 [7, 9, 3] := by
  constructor
  · exact drain_entry_removed_before_invocation.1 [4, 8] (by decide)
  · exact drain_entry_removed_before_invocation.2
      (fun c => if c = 7 then [RegOp.removeCb 9] else []) 3 4 [7, 9, 3]
      [7, 3] []
      (by
        intro c op hop
        by_cases hc : c = 7
        · simp [hc] at hop
          simp [hop]
        · simp [hc] at hop)
      (by decide)

theorem mem_applyOp_addCb (l : List Nat) (f x : Nat) (h : x ∈ l) :
    x ∈ applyOp l (RegOp.addCb f) := by
  by_cases hm : f ∈ l
  · simp [applyOp, sudo_fatal_callback_register, hm]
    exact h
  · simp [applyOp, sudo_fatal_callback_register, hm]
    exact Or.inr h

theorem self_mem_applyOp_addCb (l : List Nat) (f : Nat) :
    f ∈ applyOp l (RegOp.addCb f) := by
  by_cases hm : f ∈ l
  · simp [applyOp, sudo_fatal_callback_register, hm]
  · simp [applyOp, sudo_fatal_callback_register, hm]

theorem mem_applyOps_onlyReg : ∀ (ops : List RegOp),
    (∀ op ∈ ops, ∃ g, op = RegOp.addCb g) →
    ∀ (l : List Nat) (x : Nat), x ∈ l → x ∈ applyOps ops l := by
  intro ops
  induction ops with
  | nil => intro _ l x h; exact h
  | cons op rest ih =>
    intro hops l x h
    obtain ⟨g, hg⟩ := hops op (List.mem_cons_self op rest)
    subst hg
    show x ∈ applyOps rest (applyOp l (RegOp.addCb g))
    exact ih (fun o ho => hops o (List.mem_cons_of_mem _ ho)) _ x
      (mem_applyOp_addCb l g x h)

theorem addCb_mem_applyOps : ∀ (ops : List RegOp),
    (∀ op ∈ ops, ∃ g, op = RegOp.addCb g) →
    ∀ (l : List Nat) (g : Nat), RegOp.addCb g ∈ ops →
      g ∈ applyOps ops l := by
  intro ops
  induction ops with
  | nil => intro _ l g h; exact absurd h (List.not_mem_nil _)
  | cons op rest ih =>
    intro hops l g h
    have hrest : ∀ o ∈ rest, ∃ g, o = RegOp.addCb g :=
      fun o ho => hops o (List.mem_cons_of_mem _ ho)
    rcases List.mem_cons.mp h with heq | hmem
    · rw [← heq]
      show g ∈ applyOps rest (applyOp l (RegOp.addCb g))
      exact mem_applyOps_onlyReg rest hrest _ g (self_mem_applyOp_addCb l g)
    · show g ∈ applyOps rest (applyOp l op)
      exact ih hrest _ g hmem

theorem drain_onlyReg_invokes (B : Nat → List RegOp)
    (hB : ∀ c op, op ∈ B c → ∃ g, op = RegOp.addCb g) :
    ∀ (fuel : Nat) (reg tr fin : List Nat),
      do_cleanup B fuel reg = some (tr, fin) →
      (∀ x ∈ reg, x ∈ tr) ∧
      (∀ c ∈ tr, ∀ g, RegOp.addCb g ∈ B c → g ∈ tr) := by
  intro fuel
  induction fuel with
  | zero => intro reg tr fin h; simp [do_cleanup] at h
  | succ n ih =>
    intro reg tr fin h
    cases reg with
    | nil =>
      simp [do_cleanup] at h
      obtain ⟨h1, h2⟩ := h
      subst h1
      exact ⟨fun x hx => hx, fun c hc => absurd hc (List.not_mem_nil c)⟩
    | cons cb rest =>
      simp only [do_cleanup] at h
      cases h' : do_cleanup B n (applyOps (B cb) rest) with
      | none => rw [h'] at h; simp at h
      | some p =>
        rw [h'] at h
        cases p with
        | mk tr' fin' =>
          simp at h
          obtain ⟨htr, _⟩ := h
          have ihres := ih _ tr' fin' h'
          rw [← htr]
          constructor
          · intro x hx
            rcases List.mem_cons.mp hx with heq | hmem
            · exact List.mem_cons.mpr (Or.inl heq)
            · exact List.mem_cons.mpr (Or.inr (ihres.1 x
                (mem_applyOps_onlyReg (B cb) (hB cb) rest x hmem)))
          · intro c hc g hg
            rcases List.mem_cons.mp hc with heq | hmem
            · subst heq
              exact List.mem_cons.mpr (Or.inr (ihres.1 g
                (addCb_mem_applyOps (B c) (hB c) rest g hg)))
            · exact List.mem_cons.mpr (Or.inr (ihres.2 c hmem g hg))

theorem drain_selfreg_loops : ∀ fuel : Nat,
    do_cleanup (fun c => [RegOp.addCb c]) fuel [0] = none := by
  intro fuel
  induction fuel with
  | zero => rfl
  | succ n ih =>
    show (match do_cleanup (fun c => [RegOp.addCb c]) n
        (applyOps [RegOp.addCb 0] []) with
      | some (tr, fin) => some (0 :: tr, fin)
      | none => none) = none
    have happ : applyOps [RegOp.addCb 0] ([] : List Nat) = [0] := rfl
    rw [happ, ih]

/-- C10: with callbacks that only register (never deregister), every
callback that a running callback registers during a terminating drain is
itself invoked before the drain returns; and the drain need not
terminate — a callback that re-registers itself makes `do_cleanup` run
out of any amount of fuel. -/
theorem drain_invokes_registered_during_drain_or_loops :
    (∀ (B : Nat → List RegOp),
      (∀ c op, op ∈ B c → ∃ g, op = RegOp.addCb g) →
      ∀ (fuel : Nat) (reg tr fin : List Nat),
        do_cleanup B fuel reg = some (tr, fin) →
        ∀ c ∈ tr, ∀ g, RegOp.addCb g ∈ B c → g ∈ tr) ∧
    (∀ fuel : Nat, do_cleanup (fun c => [RegOp.addCb c]) fuel [0] = none) :=
  ⟨fun B hB fuel reg tr fin h =>
     (drain_onlyReg_invokes B hB fuel reg tr fin h).2,
   drain_selfreg_loops⟩

/-- Witness for C10: callback 0 registers callback 5 while draining, and
5 is indeed invoked (it appears in the trace). -/
theorem drain_invokes_registered_during_drain_witness :
    (5 : Nat) ∈ ([0, 5] : List Nat) :=
  drain_invokes_registered_during_drain_or_loops.1
    (fun c => if c = 0 then [RegOp.addCb 5] else [])
    (by
      intro c op hop
      by_cases hc : c = 0
      · simp [hc] at hop
        exact ⟨5, hop⟩
      · simp [hc] at hop)
    4 [0] [0, 5] [] (by decide) 0 (by decide) 5 (by simp)
